import Mathlib

/-!
Shallow embedding of `src/checker/src/contract_errors.rs` from the
`uet-master/contract-analysis` repository, together with theorems about the
four vulnerability detectors it defines (reentrancy, bad randomness, time
manipulation, numerical precision).

Modelling decisions:
* `mir::BasicBlock` and `mir::Local` are indices; they become `Nat`.
* `mir::Place` keeps its base `local` and a `projection` list.
* `std::collections::HashMap` becomes an association list whose order is the
  iteration order of the map; Rust leaves that order unspecified, so
  quantifying over all list orders quantifies over all possible iterations.
  `HashMap::iter().last()` becomes `List.getLast?`.
* `Rc<str>` callee names become `String`; `BytePos`/`Span` become `Nat`.
* Only the `mir` constructors that the checker matches on are needed; each
  inductive below carries those constructors plus representative others, so
  the wildcard arms of the Rust `if let` patterns are exercised.
-/

namespace ContractAnalysis

/-- A projection element of a `mir::Place` (field access, indexing, deref). -/
inductive PlaceElem where
  | Deref : PlaceElem
  | Field (idx : Nat) : PlaceElem
  | Index (l : Nat) : PlaceElem
deriving DecidableEq, Repr

/-- `mir::Place`: a base local variable plus a projection path. -/
structure Place where
  «local» : Nat
  projection : List PlaceElem
deriving DecidableEq, Repr

/-- `mir::Operand`. -/
inductive Operand where
  | Copy (place : Place) : Operand
  | Move (place : Place) : Operand
  | Constant (value : Nat) : Operand
deriving DecidableEq, Repr

/-- `mir::BinOp` (the checker only matches `Sub`). -/
inductive BinOp where
  | Add : BinOp
  | Sub : BinOp
  | Mul : BinOp
  | Div : BinOp
deriving DecidableEq, Repr

/-- `mir::AssertKind`: the message of an `Assert` terminator. -/
inductive AssertKind where
  | BoundsCheck (len idx : Operand) : AssertKind
  | Overflow (op : BinOp) (left right : Operand) : AssertKind
  | OverflowNeg (arg : Operand) : AssertKind
  | DivisionByZero (arg : Operand) : AssertKind
deriving DecidableEq, Repr

/-- `mir::Rvalue` (right-hand side of an assignment; never inspected). -/
inductive Rvalue where
  | Use (op : Operand) : Rvalue
  | BinaryOp (op : BinOp) (left right : Operand) : Rvalue
deriving DecidableEq, Repr

/-- `mir::StatementKind` (the checker only matches `Assign`). -/
inductive StatementKind where
  | Assign (place : Place) (rvalue : Rvalue) : StatementKind
  | StorageLive (l : Nat) : StatementKind
  | StorageDead (l : Nat) : StatementKind
  | Nop : StatementKind
deriving DecidableEq, Repr

/-- `mir::Statement`: a kind plus source info (modelled as a span number). -/
structure Statement where
  kind : StatementKind
  sourceInfo : Nat
deriving DecidableEq, Repr

/-- `mir::TerminatorKind` (the checker only matches `Assert`). -/
inductive TerminatorKind where
  | Goto (target : Nat) : TerminatorKind
  | Return : TerminatorKind
  | Call (func : String) (destination : Option Place) (target : Option Nat) : TerminatorKind
  | Assert (cond : Operand) (expected : Bool) (msg : AssertKind) (target : Nat) : TerminatorKind
deriving DecidableEq, Repr

/-- `enum BlockStatement` from `contract_errors.rs`. -/
inductive BlockStatement where
  | Statement (statement : Statement) : BlockStatement
  | TerminatorKind (kind : TerminatorKind) : BlockStatement
deriving DecidableEq, Repr

/-- `struct ReentrancyChecker` from `contract_errors.rs`.  The two `HashMap`
fields are association lists in iteration order. -/
structure ReentrancyChecker where
  block_statements : List (Nat × List BlockStatement)
  function_lamport_transfer : List (Nat × String)
  temporary_variable_for_balance : Option Place
  check_for_balance_variable : Bool
  current_assign_destination : Option Place
  starting_reentrancy_span : Nat
  ending_reentrancy_span : Nat
deriving DecidableEq, Repr

namespace ReentrancyChecker

/-- `ReentrancyChecker::new`. -/
def new : ReentrancyChecker where
  block_statements := []
  function_lamport_transfer := []
  temporary_variable_for_balance := none
  check_for_balance_variable := false
  current_assign_destination := none
  starting_reentrancy_span := 0
  ending_reentrancy_span := 0

/-- `ReentrancyChecker::visit_reentrancy_statement`: an `Assign` whose
destination has the same base local as the tracked balance place. -/
def visit_reentrancy_statement (self : ReentrancyChecker) (kind : StatementKind) : Bool :=
  match kind with
  | StatementKind.Assign place _ =>
    match self.temporary_variable_for_balance with
    | some temporary_place => temporary_place.«local» == place.«local»
    | none => false
  | _ => false

/-- `ReentrancyChecker::visit_reentrancy_terminator`: an `Assert` whose message
is `Overflow(Sub, Copy(place), _)` with `place` sharing the tracked local. -/
def visit_reentrancy_terminator (self : ReentrancyChecker) (kind : TerminatorKind) : Bool :=
  match kind with
  | TerminatorKind.Assert _ _ msg _ =>
    match msg with
    | AssertKind.Overflow BinOp.Sub left_operand _ =>
      match left_operand with
      | Operand.Copy place =>
        match self.temporary_variable_for_balance with
        | some temporary_place => temporary_place.«local» == place.«local»
        | none => false
      | _ => false
    | _ => false
  | _ => false

/-- The inner `for block_statement in block_statements` loop of `check`:
`is_reentrancy` accumulates, and the loop breaks once it is `true`. -/
def scanStatements (self : ReentrancyChecker) :
    List BlockStatement → Bool → Bool
  | [], is_reentrancy => is_reentrancy
  | BlockStatement.Statement statement :: rest, is_reentrancy =>
    let status := self.visit_reentrancy_statement statement.kind
    let is_reentrancy := status || is_reentrancy
    if is_reentrancy then is_reentrancy else self.scanStatements rest is_reentrancy
  | BlockStatement.TerminatorKind kind :: rest, is_reentrancy =>
    let status := self.visit_reentrancy_terminator kind
    let is_reentrancy := status || is_reentrancy
    if is_reentrancy then is_reentrancy else self.scanStatements rest is_reentrancy

/-- The outer `for (bb, block_statements) in &self.block_statements` loop of
`check`: blocks with id at most `last_bb` are skipped (`continue`). -/
def checkBlocks (self : ReentrancyChecker) :
    List (Nat × List BlockStatement) → Nat → Bool → Bool
  | [], _, is_reentrancy => is_reentrancy
  | (bb, block_statements) :: rest, last_bb, is_reentrancy =>
    if bb ≤ last_bb then self.checkBlocks rest last_bb is_reentrancy
    else self.checkBlocks rest last_bb (self.scanStatements block_statements is_reentrancy)

/-- `ReentrancyChecker::check`.  `iter().last()` on the transfer map becomes
`List.getLast?` on its iteration order. -/
def check (self : ReentrancyChecker) : Bool :=
  if self.function_lamport_transfer.isEmpty then false
  else
    match self.function_lamport_transfer.getLast? with
    | some (last_bb, _) => self.checkBlocks self.block_statements last_bb false
    | none => false

/-- The block id that `check` actually picks as "last transfer block": the key
of the final entry of the transfer map's iteration order. -/
def lastTransferChoice (self : ReentrancyChecker) : Option Nat :=
  self.function_lamport_transfer.getLast?.map Prod.fst

/-- The recorded transfer block ids, in iteration order. -/
def transferKeys (self : ReentrancyChecker) : List Nat :=
  self.function_lamport_transfer.map Prod.fst

/-- The two `if let` arms of the inner loop of `check`, as one function on
`BlockStatement` (used to state characterization lemmas). -/
def visitBlockStatement (self : ReentrancyChecker) : BlockStatement → Bool
  | BlockStatement.Statement statement => self.visit_reentrancy_statement statement.kind
  | BlockStatement.TerminatorKind kind => self.visit_reentrancy_terminator kind

/-- `visit_reentrancy_statement` viewed as a method call: the receiver is
taken by shared reference (`&self`, no interior mutability in any field), so
the call hands the receiver back unchanged next to its result. -/
def visit_reentrancy_statement_call (self : ReentrancyChecker) (kind : StatementKind) :
    Bool × ReentrancyChecker :=
  (self.visit_reentrancy_statement kind, self)

/-- `visit_reentrancy_terminator` viewed as a method call (`&self` receiver). -/
def visit_reentrancy_terminator_call (self : ReentrancyChecker) (kind : TerminatorKind) :
    Bool × ReentrancyChecker :=
  (self.visit_reentrancy_terminator kind, self)

/-- The inner loop of `check` with the receiver threaded through every method
call, so that any state change made by a callee would propagate. -/
def scanStatementsCall :
    ReentrancyChecker → List BlockStatement → Bool → Bool × ReentrancyChecker
  | self, [], is_reentrancy => (is_reentrancy, self)
  | self, BlockStatement.Statement statement :: rest, is_reentrancy =>
    let r := self.visit_reentrancy_statement_call statement.kind
    let is_reentrancy := r.1 || is_reentrancy
    if is_reentrancy then (is_reentrancy, r.2)
    else scanStatementsCall r.2 rest is_reentrancy
  | self, BlockStatement.TerminatorKind kind :: rest, is_reentrancy =>
    let r := self.visit_reentrancy_terminator_call kind
    let is_reentrancy := r.1 || is_reentrancy
    if is_reentrancy then (is_reentrancy, r.2)
    else scanStatementsCall r.2 rest is_reentrancy

/-- The outer loop of `check` with the receiver threaded through. -/
def checkBlocksCall :
    ReentrancyChecker → List (Nat × List BlockStatement) → Nat → Bool →
      Bool × ReentrancyChecker
  | self, [], _, is_reentrancy => (is_reentrancy, self)
  | self, (bb, block_statements) :: rest, last_bb, is_reentrancy =>
    if bb ≤ last_bb then checkBlocksCall self rest last_bb is_reentrancy
    else
      let r := scanStatementsCall self block_statements is_reentrancy
      checkBlocksCall r.2 rest last_bb r.1

/-- `check` viewed as a method call on the receiver, returning the result next
to the state the receiver holds after the call. -/
def checkCall (self : ReentrancyChecker) : Bool × ReentrancyChecker :=
  if self.function_lamport_transfer.isEmpty then (false, self)
  else
    match self.function_lamport_transfer.getLast? with
    | some (last_bb, _) => checkBlocksCall self self.block_statements last_bb false
    | none => (false, self)

end ReentrancyChecker

/-- `struct BadrandomnessChecker` from `contract_errors.rs`. -/
structure BadrandomnessChecker where
  check_for_rand_lib : Bool
  bad_randomness_span : Nat
deriving DecidableEq, Repr

/-- `BadrandomnessChecker::check`. -/
def BadrandomnessChecker.check (self : BadrandomnessChecker) : Bool :=
  self.check_for_rand_lib

/-- `struct TimeManipulationChecker` from `contract_errors.rs`. -/
structure TimeManipulationChecker where
  check_for_clock_lib : Bool
  time_manipulation_span : Nat
deriving DecidableEq, Repr

/-- `TimeManipulationChecker::check`. -/
def TimeManipulationChecker.check (self : TimeManipulationChecker) : Bool :=
  self.check_for_clock_lib

/-- `struct NumericalPrecisionErrorChecker` from `contract_errors.rs`. -/
structure NumericalPrecisionErrorChecker where
  check_for_round_func : Bool
  numerical_precision_error_span : Nat
deriving DecidableEq, Repr

/-- `NumericalPrecisionErrorChecker::check`. -/
def NumericalPrecisionErrorChecker.check (self : NumericalPrecisionErrorChecker) : Bool :=
  self.check_for_round_func

/-! Concrete detector states used to evaluate the code on explicit inputs. -/

/-- The place with base local 7 and no projection, used as a tracked balance. -/
def balancePlace : Place := { «local» := 7, projection := [] }

/-- A place with the same base local 7 but reached through a field projection. -/
def projectedBalancePlace : Place := { «local» := 7, projection := [PlaceElem.Field 0] }

/-- An assignment whose destination shares base local 7 with `balancePlace`
but carries a field projection. -/
def balanceAssign : Statement :=
  { kind := StatementKind.Assign projectedBalancePlace (Rvalue.Use (Operand.Constant 0)),
    sourceInfo := 42 }

/-- A state whose transfer map iterates as block 5 first, block 3 last. -/
def c1State : ReentrancyChecker :=
  { ReentrancyChecker.new with
    function_lamport_transfer := [(5, "transfer"), (3, "transfer")] }

/-- A state with one transfer at block 3, a tracked balance, and a write to
the tracked balance in block 6. -/
def c2State : ReentrancyChecker :=
  { ReentrancyChecker.new with
    block_statements := [(6, [BlockStatement.Statement balanceAssign])],
    function_lamport_transfer := [(3, "transfer")],
    temporary_variable_for_balance := some balancePlace }

/-- Transfers at blocks 5 and 3 (iteration ending at block 3); the only write
to the tracked balance sits in block 4, which is not after block 5. -/
def c3State : ReentrancyChecker :=
  { ReentrancyChecker.new with
    block_statements := [(4, [BlockStatement.Statement balanceAssign])],
    function_lamport_transfer := [(5, "transfer"), (3, "transfer")],
    temporary_variable_for_balance := some balancePlace }

/-- A state with no recorded transfer but non-trivial blocks, tracked balance
and spans. -/
def c4State : ReentrancyChecker :=
  { block_statements := [(6, [BlockStatement.Statement balanceAssign])],
    function_lamport_transfer := [],
    temporary_variable_for_balance := some balancePlace,
    check_for_balance_variable := true,
    current_assign_destination := some balancePlace,
    starting_reentrancy_span := 10,
    ending_reentrancy_span := 20 }

/-- A state with a tracked balance only (for evaluating the visit functions). -/
def c5State : ReentrancyChecker :=
  { ReentrancyChecker.new with temporary_variable_for_balance := some balancePlace }

/-- Another state with a tracked balance only. -/
def c6State : ReentrancyChecker :=
  { ReentrancyChecker.new with temporary_variable_for_balance := some balancePlace }

/-- An overflow-checked subtraction whose left operand copies the tracked
balance through a projection. -/
def overflowSubAssert : TerminatorKind :=
  TerminatorKind.Assert (Operand.Constant 1) false
    (AssertKind.Overflow BinOp.Sub (Operand.Copy projectedBalancePlace) (Operand.Constant 2)) 9

/-- A transfer at block 2 and a later write in block 5, but no tracked
balance place. -/
def c7State : ReentrancyChecker :=
  { ReentrancyChecker.new with
    block_statements := [(5, [BlockStatement.Statement balanceAssign])],
    function_lamport_transfer := [(2, "transfer")] }

/-- A vulnerable state: transfer at block 3, write to the tracked balance at
block 6, plus arbitrary contents in the fields `check` never reads. -/
def c10StateA : ReentrancyChecker :=
  { block_statements := [(6, [BlockStatement.Statement balanceAssign])],
    function_lamport_transfer := [(3, "transfer")],
    temporary_variable_for_balance := some balancePlace,
    check_for_balance_variable := false,
    current_assign_destination := none,
    starting_reentrancy_span := 0,
    ending_reentrancy_span := 0 }

/-- The same core fields as `c10StateA` with every other field changed. -/
def c10StateB : ReentrancyChecker :=
  { c10StateA with
    check_for_balance_variable := true,
    current_assign_destination := some { «local» := 1, projection := [] },
    starting_reentrancy_span := 11,
    ending_reentrancy_span := 99 }

/-! Characterization lemmas for the loops of `check`. -/

open ReentrancyChecker

/-- An element delivered by `List.getLast?` belongs to the list. -/
theorem mem_of_getLastEq {α : Type} {l : List α} {a : α}
    (h : l.getLast? = some a) : a ∈ l := by
  have hne : l ≠ [] := by
    intro he
    subst he
    simp at h
  rw [List.getLast?_eq_getLast_of_ne_nil hne] at h
  have ha : l.getLast hne = a := by
    injection h
  rw [← ha]
  exact List.getLast_mem hne

/-- The break-on-true inner loop computes the disjunction of its accumulator
with `visitBlockStatement` over the block's items. -/
theorem scanStatements_eq_or_any (self : ReentrancyChecker)
    (l : List BlockStatement) (acc : Bool) :
    self.scanStatements l acc = (acc || l.any self.visitBlockStatement) := by
  induction l generalizing acc with
  | nil => simp [scanStatements]
  | cons bs rest ih =>
    cases bs with
    | Statement statement =>
      cases hv : self.visit_reentrancy_statement statement.kind <;> cases acc <;>
        simp [scanStatements, visitBlockStatement, hv, ih]
    | TerminatorKind kind =>
      cases hv : self.visit_reentrancy_terminator kind <;> cases acc <;>
        simp [scanStatements, visitBlockStatement, hv, ih]

/-- The outer loop computes the disjunction of its accumulator with the scan
of every retained block whose id exceeds `last_bb`. -/
theorem checkBlocks_eq_or_any (self : ReentrancyChecker)
    (l : List (Nat × List BlockStatement)) (last_bb : Nat) (acc : Bool) :
    self.checkBlocks l last_bb acc =
      (acc || l.any fun p =>
        decide (last_bb < p.1) && p.2.any self.visitBlockStatement) := by
  induction l generalizing acc with
  | nil => simp [checkBlocks]
  | cons p rest ih =>
    obtain ⟨bb, items⟩ := p
    by_cases hbb : bb ≤ last_bb
    · have hnlt : ¬ last_bb < bb := Nat.not_lt.mpr hbb
      simp [checkBlocks, hbb, ih, hnlt]
    · have hlt : last_bb < bb := Nat.not_le.mp hbb
      simp [checkBlocks, hbb, ih, scanStatements_eq_or_any, hlt, Bool.or_assoc]

/-- `check` returns `true` exactly when the transfer map's iteration ends at
some entry and a retained block with a larger id holds a matching item. -/
theorem check_eq_true_iff (self : ReentrancyChecker) :
    self.check = true ↔
      ∃ last_bb nm, self.function_lamport_transfer.getLast? = some (last_bb, nm) ∧
        ∃ p ∈ self.block_statements, last_bb < p.1 ∧
          ∃ bs ∈ p.2, self.visitBlockStatement bs = true := by
  unfold check
  cases hE : self.function_lamport_transfer.isEmpty with
  | true =>
    have hnil : self.function_lamport_transfer = [] := by
      simpa [List.isEmpty_iff] using hE
    simp [hnil]
  | false =>
    cases hL : self.function_lamport_transfer.getLast? with
    | none =>
      have hnil : self.function_lamport_transfer = [] :=
        List.getLast?_eq_none_iff.mp hL
      rw [hnil] at hE
      simp at hE
    | some q =>
      obtain ⟨last_bb, nm⟩ := q
      simp [checkBlocks_eq_or_any, List.any_eq_true]

/-- When the tracked balance place is unset, no item matches. -/
theorem visitBlockStatement_of_balance_none (self : ReentrancyChecker)
    (h : self.temporary_variable_for_balance = none) (bs : BlockStatement) :
    self.visitBlockStatement bs = false := by
  cases bs with
  | Statement statement =>
    show self.visit_reentrancy_statement statement.kind = false
    unfold visit_reentrancy_statement
    cases statement.kind <;> simp [h]
  | TerminatorKind kind =>
    show self.visit_reentrancy_terminator kind = false
    unfold visit_reentrancy_terminator
    cases kind with
    | Assert cond expected msg target =>
      cases msg with
      | Overflow op left right => cases op <;> cases left <;> simp [h]
      | BoundsCheck len idx => rfl
      | OverflowNeg arg => rfl
      | DivisionByZero arg => rfl
    | Goto target => rfl
    | Return => rfl
    | Call func destination target => rfl

/-- The threaded inner loop returns the pure scan result and the unchanged
receiver. -/
theorem scanStatementsCall_eq (self : ReentrancyChecker)
    (l : List BlockStatement) (acc : Bool) :
    scanStatementsCall self l acc = (self.scanStatements l acc, self) := by
  induction l generalizing acc with
  | nil => rfl
  | cons bs rest ih =>
    cases bs with
    | Statement statement =>
      cases hv : self.visit_reentrancy_statement statement.kind <;> cases acc <;>
        simp [scanStatementsCall, scanStatements, visit_reentrancy_statement_call, hv, ih]
    | TerminatorKind kind =>
      cases hv : self.visit_reentrancy_terminator kind <;> cases acc <;>
        simp [scanStatementsCall, scanStatements, visit_reentrancy_terminator_call, hv, ih]

/-- The threaded outer loop returns the pure result and the unchanged
receiver. -/
theorem checkBlocksCall_eq (self : ReentrancyChecker)
    (l : List (Nat × List BlockStatement)) (last_bb : Nat) (acc : Bool) :
    checkBlocksCall self l last_bb acc = (self.checkBlocks l last_bb acc, self) := by
  induction l generalizing acc with
  | nil => rfl
  | cons p rest ih =>
    obtain ⟨bb, items⟩ := p
    by_cases hbb : bb ≤ last_bb <;>
      simp [checkBlocksCall, checkBlocks, hbb, scanStatementsCall_eq, ih]

/-- Calling `check` as a method returns the pure result and the unchanged
receiver. -/
theorem checkCall_eq (self : ReentrancyChecker) :
    self.checkCall = (self.check, self) := by
  cases hE : self.function_lamport_transfer.isEmpty with
  | true => simp [checkCall, check, hE]
  | false =>
    cases hL : self.function_lamport_transfer.getLast? with
    | none => simp [checkCall, check, hE, hL]
    | some q =>
      obtain ⟨last_bb, nm⟩ := q
      simp [checkCall, check, hE, hL, checkBlocksCall_eq]

/-! Claim theorems. -/

/-- C1: the claim states that the block chosen as the last transfer block is
the maximum recorded transfer block id for every possible content of the
transfers map.  On `c1State`, whose transfer map iterates as block 5 then
block 3, `check`'s selection rule picks block 3 while the maximum recorded id
is 5: the code takes the final element of an unspecified iteration order, not
the maximum. -/
theorem c1_last_transfer_choice_not_maximum :
    c1State.lastTransferChoice = some 3 ∧
    (5 : Nat) ∈ c1State.transferKeys ∧
    (∀ b ∈ c1State.transferKeys, b ≤ 5) ∧
    c1State.lastTransferChoice ≠ some 5 := by
  decide

/-- C2: if a transfer is recorded at the block `T` of maximum id among all
recorded transfers, the tracked balance place is set, and some retained block
with id strictly greater than `T` contains an `Assign` whose destination has
the same base local as the tracked place, then `check` returns `true`. -/
theorem c2_post_transfer_write_detected (s : ReentrancyChecker) (T : Nat)
    (hT : T ∈ s.transferKeys) (hmax : ∀ b ∈ s.transferKeys, b ≤ T)
    (tp : Place) (htp : s.temporary_variable_for_balance = some tp)
    (b : Nat) (items : List BlockStatement)
    (hmem : (b, items) ∈ s.block_statements) (hgt : T < b)
    (dest : Place) (rv : Rvalue) (info : Nat)
    (hitem : BlockStatement.Statement
      { kind := StatementKind.Assign dest rv, sourceInfo := info } ∈ items)
    (hlocal : dest.«local» = tp.«local») :
    s.check = true := by
  have hne : s.function_lamport_transfer ≠ [] := by
    intro h
    rw [transferKeys, h] at hT
    simp at hT
  have hL : s.function_lamport_transfer.getLast? =
      some (s.function_lamport_transfer.getLast hne) :=
    List.getLast?_eq_getLast_of_ne_nil hne
  have hlast_mem : s.function_lamport_transfer.getLast hne ∈ s.function_lamport_transfer :=
    List.getLast_mem hne
  have hkey : (s.function_lamport_transfer.getLast hne).1 ∈ s.transferKeys := by
    exact List.mem_map_of_mem Prod.fst hlast_mem
  have hle : (s.function_lamport_transfer.getLast hne).1 ≤ T := hmax _ hkey
  rw [check_eq_true_iff]
  refine ⟨(s.function_lamport_transfer.getLast hne).1,
    (s.function_lamport_transfer.getLast hne).2, by simpa using hL,
    ⟨b, items⟩, hmem, lt_of_le_of_lt hle hgt,
    BlockStatement.Statement { kind := StatementKind.Assign dest rv, sourceInfo := info },
    hitem, ?_⟩
  show s.visit_reentrancy_statement (StatementKind.Assign dest rv) = true
  simp [visit_reentrancy_statement, htp, hlocal]

/-- C2 witness: on `c2State` (transfer at block 3, tracked balance local 7,
write to local 7 in block 6), `check` returns `true`. -/
theorem c2_witness : c2State.check = true :=
  c2_post_transfer_write_detected c2State 3 (by decide) (by decide)
    balancePlace rfl 6 [BlockStatement.Statement balanceAssign] (by decide) (by decide)
    projectedBalancePlace (Rvalue.Use (Operand.Constant 0)) 42 (by decide) rfl

/-- C3: the claim states that with at least one recorded transfer and every
matching `Assign`/overflow-subtract `Assert` confined to blocks with id at
most the maximum transfer block id `T`, `check` returns `false`.  On
`c3State` — transfers at blocks 5 and 3 with iteration ending at block 3, and
the only matching item in block 4 ≤ 5 = `T` — `check` nevertheless returns
`true`, because the code compares block ids against the final iteration
element (block 3) instead of the maximum (block 5). -/
theorem c3_pre_transfer_write_still_flagged :
    (5 : Nat) ∈ c3State.transferKeys ∧
    (∀ b ∈ c3State.transferKeys, b ≤ 5) ∧
    (∀ p ∈ c3State.block_statements, ∀ bs ∈ p.2,
      c3State.visitBlockStatement bs = true → p.1 ≤ 5) ∧
    c3State.check = true := by
  decide

/-- C4: with an empty transfers map, `check` returns `false`, whatever the
retained blocks and the tracked balance place hold. -/
theorem c4_empty_transfers_no_finding (s : ReentrancyChecker)
    (h : s.function_lamport_transfer = []) : s.check = false := by
  unfold check
  simp [h]

/-- C4 witness: `c4State` has no transfers but non-trivial blocks, tracked
balance and spans, and `check` returns `false` on it. -/
theorem c4_witness : c4State.check = false :=
  c4_empty_transfers_no_finding c4State rfl

/-- C5: an `Assign` is judged a write to the tracked balance exactly when the
tracked balance place is set and the destination's base local equals the
tracked place's base local; the projections of both places play no role. -/
theorem c5_assign_matches_iff_same_base (s : ReentrancyChecker)
    (dest : Place) (rv : Rvalue) :
    s.visit_reentrancy_statement (StatementKind.Assign dest rv) = true ↔
      ∃ tp, s.temporary_variable_for_balance = some tp ∧
        tp.«local» = dest.«local» := by
  unfold visit_reentrancy_statement
  cases htp : s.temporary_variable_for_balance with
  | none => simp
  | some tp => simp [beq_iff_eq]

/-- C5 witness: on `c5State` (tracked balance is local 7, no projection), an
assignment to local 7 through a field projection is judged a match. -/
theorem c5_witness :
    c5State.visit_reentrancy_statement
      (StatementKind.Assign projectedBalancePlace (Rvalue.Use (Operand.Constant 0))) = true :=
  (c5_assign_matches_iff_same_base c5State projectedBalancePlace
    (Rvalue.Use (Operand.Constant 0))).mpr ⟨balancePlace, rfl, rfl⟩

/-- C6: an `Assert` terminator yields a finding exactly when its message is
an overflowing subtraction whose left operand is a `Copy` of a place, the
tracked balance place is set, and that place's base local equals the tracked
place's base local; every other terminator, assert kind, operand shape or
place yields none. -/
theorem c6_assert_matches_iff_overflow_sub_copy (s : ReentrancyChecker)
    (k : TerminatorKind) :
    s.visit_reentrancy_terminator k = true ↔
      ∃ cond expected target place r tp,
        k = TerminatorKind.Assert cond expected
              (AssertKind.Overflow BinOp.Sub (Operand.Copy place) r) target ∧
        s.temporary_variable_for_balance = some tp ∧
        tp.«local» = place.«local» := by
  unfold visit_reentrancy_terminator
  cases k with
  | Goto target => simp
  | Return => simp
  | Call func destination target => simp
  | Assert cond expected msg target =>
    cases msg with
    | BoundsCheck len idx => simp
    | OverflowNeg arg => simp
    | DivisionByZero arg => simp
    | Overflow op left right =>
      cases op with
      | Add => simp
      | Mul => simp
      | Div => simp
      | Sub =>
        cases left with
        | Move place => simp
        | Constant value => simp
        | Copy place =>
          cases htp : s.temporary_variable_for_balance with
          | none => simp
          | some tp =>
            rw [beq_iff_eq]
            constructor
            · intro hloc
              exact ⟨cond, expected, target, place, right, tp, rfl, rfl, hloc⟩
            · rintro ⟨c, e, t, p, r, tp2, hk, htp2, hloc⟩
              cases hk
              cases htp2
              exact hloc

/-- C6 witness: on `c6State`, an overflow-subtract assert copying local 7
through a projection is judged a match. -/
theorem c6_witness :
    c6State.visit_reentrancy_terminator overflowSubAssert = true :=
  (c6_assert_matches_iff_overflow_sub_copy c6State overflowSubAssert).mpr
    ⟨Operand.Constant 1, false, 9, projectedBalancePlace, Operand.Constant 2,
      balancePlace, rfl, rfl, rfl⟩

/-- C7: `check` is a total function of the state (the embedding is a plain
`def`, with every optional lookup guarded), and when the tracked balance
place is unset it returns `false`, whatever transfers were recorded and
whatever the retained blocks contain. -/
theorem c7_unset_balance_no_finding (s : ReentrancyChecker)
    (h : s.temporary_variable_for_balance = none) : s.check = false := by
  cases hc : s.check with
  | false => rfl
  | true =>
    obtain ⟨last_bb, nm, hL, p, hp, hlt, bs, hbs, hv⟩ := (check_eq_true_iff s).mp hc
    rw [visitBlockStatement_of_balance_none s h bs] at hv
    exact Bool.noConfusion hv

/-- C7 witness: `c7State` records a transfer at block 2 and an assignment in
block 5, has no tracked balance, and `check` returns `false` on it. -/
theorem c7_witness : c7State.check = false :=
  c7_unset_balance_no_finding c7State rfl

/-- C8: each of the three simple flag detectors returns exactly its flag
field from `check`, for every state. -/
theorem c8_flag_detectors_return_flag (br : BadrandomnessChecker)
    (tm : TimeManipulationChecker) (np : NumericalPrecisionErrorChecker) :
    br.check = br.check_for_rand_lib ∧
    tm.check = tm.check_for_clock_lib ∧
    np.check = np.check_for_round_func :=
  ⟨rfl, rfl, rfl⟩

/-- C9: calling `check` hands the receiver back unchanged (every field is as
before the call), and a repeated call on the returned state yields the same
result as the first. -/
theorem c9_check_preserves_state (s : ReentrancyChecker) :
    s.checkCall.2 = s ∧ s.checkCall.1 = s.check ∧
    s.checkCall.2.checkCall.1 = s.checkCall.1 := by
  refine ⟨?_, ?_, ?_⟩ <;> simp [checkCall_eq]

/-- C10: `check` reads only the retained blocks map, the transfer map and the
tracked balance place: two states agreeing on those three fields get the same
result, however the remaining four fields differ. -/
theorem c10_check_depends_only_on_core_fields (s₁ s₂ : ReentrancyChecker)
    (hb : s₁.block_statements = s₂.block_statements)
    (ht : s₁.function_lamport_transfer = s₂.function_lamport_transfer)
    (hv : s₁.temporary_variable_for_balance = s₂.temporary_variable_for_balance) :
    s₁.check = s₂.check := by
  have hfun : s₁.visitBlockStatement = s₂.visitBlockStatement := by
    funext bs
    cases bs with
    | Statement statement =>
      show s₁.visit_reentrancy_statement statement.kind =
        s₂.visit_reentrancy_statement statement.kind
      unfold visit_reentrancy_statement
      rw [hv]
    | TerminatorKind kind =>
      show s₁.visit_reentrancy_terminator kind = s₂.visit_reentrancy_terminator kind
      unfold visit_reentrancy_terminator
      rw [hv]
  unfold check
  rw [ht, hb]
  cases hE : s₂.function_lamport_transfer.isEmpty with
  | true => rfl
  | false =>
    cases hL : s₂.function_lamport_transfer.getLast? with
    | none => rfl
    | some q =>
      obtain ⟨last_bb, nm⟩ := q
      simp [checkBlocks_eq_or_any, hfun]

/-- C10 witness: `c10StateA` and `c10StateB` agree on the three fields `check`
reads and differ in all four others, and `check` agrees on them. -/
theorem c10_witness : c10StateA.check = c10StateB.check :=
  c10_check_depends_only_on_core_fields c10StateA c10StateB rfl rfl rfl

end ContractAnalysis
